import Mathlib

/-!
# Alert2Gotify: the webhook bridge of `main.go`

A shallow embedding of the single source file `main.go`: the three payload
types, the helpers `getMapValue`, `formatTime`, `sendToGotify`, and the
`/webhook` handler registered in `main`.

The Go standard library is not part of the program.  What the handler needs
from it is collected in the record `Lib` (the Unicode case tables above ASCII,
`time.Parse` with the RFC 3339 layout, local-time rendering, the JSON encoder
and decoder); `http.Post` is a function on an explicit state of the outside
world.  Every theorem about the program is proved for all such libraries and
all such networks.
-/

namespace Alert2Gotify

/-! ## Data model (main.go, lines 13-34) -/

/-- A Go `map[string]string`.  `none` is the nil map, which is what the JSON
decoder leaves when the field is absent or `null`; looking a key up in it
finds nothing, as in Go. -/
abbrev GoMap := Option (List (String × String))

/-- Go `m[key]` in its two-valued form `val, ok := m[key]`. -/
def GoMap.find (m : GoMap) (key : String) : Option String :=
  match m with
  | none => none
  | some kvs => kvs.lookup key

/-- The struct `Alert` (lines 21-27). -/
structure Alert where
  Status : String
  Labels : GoMap
  Annotations : GoMap
  StartsAt : String
  EndsAt : String

/-- The struct `AlertmanagerPayload` (lines 14-18). -/
structure AlertmanagerPayload where
  Status : String
  Alerts : List Alert
  Version : String

/-- The struct `GotifyPayload` (lines 30-34). -/
structure GotifyPayload where
  Title : String
  Message : String
  Priority : Int
deriving DecidableEq

/-- A scalar JSON value, as far as `GotifyPayload` needs them. -/
inductive JSONValue where
  | str (s : String)
  | int (n : Int)
deriving DecidableEq

/-- The JSON object that the struct tags of `GotifyPayload` describe
(`json:"title"`, `json:"message"`, `json:"priority"`, in field order). -/
def GotifyPayload.toJSON (msg : GotifyPayload) : List (String × JSONValue) :=
  [("title", .str msg.Title), ("message", .str msg.Message), ("priority", .int msg.Priority)]

/-- An instant as `time.Time` holds it: seconds and nanoseconds. -/
structure Time where
  sec : Int
  nsec : Nat
deriving DecidableEq

/-- What the handler uses of the Go standard library.  Errors are carried as
their `Error()` text. -/
structure Lib where
  /-- Go `unicode.ToUpper` on runes above ASCII (the Unicode case tables) -/
  upperTable : Char → Char
  /-- Go `unicode.ToLower` on runes above ASCII (the Unicode case tables) -/
  lowerTable : Char → Char
  /-- Go `time.Parse(time.RFC3339, s)` -/
  timeParse : String → Except String Time
  /-- Go `t.Local().Format("2006-01-02 15:04:05")`; depends on the local zone -/
  formatLocal : Time → String
  /-- Go `json.Marshal`, as the text encoder of a JSON object -/
  jsonMarshal : List (String × JSONValue) → Except String String
  /-- Go `json.NewDecoder(body).Decode(&alertData)` -/
  jsonDecode : String → Except String AlertmanagerPayload

/-! ## Library functions with a fixed ASCII part -/

/-- Go `unicode.ToUpper`: the ASCII branch is in the Go source of the function
itself, everything above ASCII goes through the case tables. -/
def unicodeToUpper (lib : Lib) (r : Char) : Char :=
  if r.toNat ≤ 0x7F then
    if 'a'.toNat ≤ r.toNat ∧ r.toNat ≤ 'z'.toNat then Char.ofNat (r.toNat - 32) else r
  else lib.upperTable r

/-- Go `unicode.ToLower`. -/
def unicodeToLower (lib : Lib) (r : Char) : Char :=
  if r.toNat ≤ 0x7F then
    if 'A'.toNat ≤ r.toNat ∧ r.toNat ≤ 'Z'.toNat then Char.ofNat (r.toNat + 32) else r
  else lib.lowerTable r

/-- Go `strings.ToUpper`: rune by rune (its ASCII-only fast path computes the
same string). -/
def stringsToUpper (lib : Lib) (s : String) : String :=
  String.mk (s.data.map (unicodeToUpper lib))

/-- Go `strings.ToLower`. -/
def stringsToLower (lib : Lib) (s : String) : String :=
  String.mk (s.data.map (unicodeToLower lib))

/-! ## The helpers of main.go -/

/-- The function `getMapValue` (lines 124-129). -/
def getMapValue (m : GoMap) (key defaultValue : String) : String :=
  match m.find key with
  | some val => val
  | none => defaultValue

/-- The function `formatTime` (lines 132-141). -/
def formatTime (lib : Lib) (isoTime : String) : String :=
  if isoTime = "0001-01-01T00:00:00Z" then ""
  else
    match lib.timeParse isoTime with
    | .error _ => isoTime
    | .ok t => lib.formatLocal t

/-- The body of the per-alert loop up to the construction of `gotifyMsg`
(lines 67-97). -/
def alertToGotify (lib : Lib) (alert : Alert) : GotifyPayload :=
  let alertName := getMapValue alert.Labels "alertname" "未知告警"
  let severity := getMapValue alert.Labels "severity" "unknown"
  let summary := getMapValue alert.Annotations "summary" "无摘要"
  let description := getMapValue alert.Annotations "description" "无详情"
  let status := stringsToUpper lib alert.Status
  let lower := stringsToLower lib severity
  let priority : Int :=
    if lower = "critical" then 8
    else if lower = "warning" then 5
    else if lower = "info" then 3
    else 5
  let startTime := formatTime lib alert.StartsAt
  let endTime := formatTime lib alert.EndsAt
  let timeStr :=
    if status = "RESOLVED" ∧ endTime ≠ "" then "恢复时间: " ++ endTime
    else "触发时间: " ++ startTime
  { Title := "[" ++ severity ++ "] " ++ alertName ++ " (" ++ status ++ ")"
    Message := summary ++ "\n" ++ description ++ "\n" ++ timeStr
    Priority := priority }

/-! ## The outside world -/

/-- The part of `*http.Response` that the program reads. -/
structure Response where
  StatusCode : Int
deriving DecidableEq

/-- One call of `http.Post(url, contentType, body)`. -/
structure PostCall where
  url : String
  contentType : String
  body : String
deriving DecidableEq

/-- One call of `sendToGotify(gotifyURL, token, msg)`. -/
structure SendCall where
  gotifyURL : String
  token : String
  msg : GotifyPayload
deriving DecidableEq

/-- The state threaded through the handler: the state `net` of the network
(of a type chosen freely), and the observable trace, in order: the calls of
`sendToGotify`, the calls of `http.Post`, the lines written to standard
output. -/
structure World (σ : Type) where
  net : σ
  sends : List SendCall
  posts : List PostCall
  stdout : List String

/-- The network as seen through `http.Post`: a response or an error, and the
next state of the network. -/
abbrev HttpPost (σ : Type) := σ → PostCall → Except String Response × σ

/-- The function `sendToGotify` (lines 144-160). -/
def sendToGotify {σ : Type} (lib : Lib) (httpPost : HttpPost σ) (w : World σ)
    (gotifyURL token : String) (msg : GotifyPayload) : Except String Response × World σ :=
  let w := { w with sends := w.sends ++ [⟨gotifyURL, token, msg⟩] }
  match lib.jsonMarshal msg.toJSON with
  | .error err => (.error ("JSON 序列化失败: " ++ err), w)
  | .ok jsonData =>
    let fullURL := gotifyURL ++ "/message?token=" ++ token
    let call : PostCall := ⟨fullURL, "application/json", jsonData⟩
    match httpPost w.net call with
    | (.error err, net) =>
      (.error ("请求发送失败: " ++ err), { w with net := net, posts := w.posts ++ [call] })
    | (.ok resp, net) =>
      (.ok resp, { w with net := net, posts := w.posts ++ [call] })

/-- The loop `for _, alert := range alertData.Alerts` (lines 65-106). -/
def forwardAlerts {σ : Type} (lib : Lib) (httpPost : HttpPost σ) (gotifyURL gotifyToken : String) :
    List Alert → World σ → World σ
  | [], w => w
  | alert :: rest, w =>
    let alertName := getMapValue alert.Labels "alertname" "未知告警"
    let gotifyMsg := alertToGotify lib alert
    match sendToGotify lib httpPost w gotifyURL gotifyToken gotifyMsg with
    | (.error err, w1) =>
      forwardAlerts lib httpPost gotifyURL gotifyToken rest
        { w1 with stdout := w1.stdout ++ ["推送失败: " ++ err ++ "\n"] }
    | (.ok resp, w1) =>
      forwardAlerts lib httpPost gotifyURL gotifyToken rest
        { w1 with stdout := w1.stdout ++
            ["推送成功: " ++ alertName ++ "，状态码: " ++ toString resp.StatusCode ++ "\n"] }

/-- What the handler writes to its `http.ResponseWriter`. -/
structure Reply where
  status : Nat
  body : String
deriving DecidableEq

/-- The handler registered for `/webhook` (lines 54-111), applied to a request
body.  `http.Error` writes the text followed by a newline. -/
def webhookHandler {σ : Type} (lib : Lib) (httpPost : HttpPost σ) (gotifyURL gotifyToken : String)
    (w : World σ) (body : String) : Reply × World σ :=
  match lib.jsonDecode body with
  | .error err =>
    (⟨400, "解析请求失败: " ++ err ++ "\n"⟩,
      { w with stdout := w.stdout ++ ["解析失败: " ++ err ++ "\n"] })
  | .ok alertData =>
    (⟨200, "ok"⟩, forwardAlerts lib httpPost gotifyURL gotifyToken alertData.Alerts w)

/-! ## Case-insensitive comparison, as the specification words it

These two definitions are not taken from main.go: they say what "the same
word in any letter case" means for ASCII letters, to compare the switch of
lines 75-82 with. -/

/-- Lower-casing that touches the ASCII letters `A`-`Z` only. -/
def asciiToLower (r : Char) : Char :=
  if 'A'.toNat ≤ r.toNat ∧ r.toNat ≤ 'Z'.toNat then Char.ofNat (r.toNat + 32) else r

/-- Two strings are equal up to the case of their ASCII letters. -/
def equalFoldASCII (s t : String) : Bool :=
  s.data.map asciiToLower == t.data.map asciiToLower

/-! ## A small library and network to evaluate the program on -/

/-- The alert of the first end-to-end scenario: firing, labelled
`alertname=HighCPU`, `severity=critical`, with both annotations. -/
def scenarioAlert : Alert :=
  ⟨"firing", some [("alertname", "HighCPU"), ("severity", "critical")],
    some [("summary", "CPU high"), ("description", "CPU > 90%")],
    "2024-01-01T10:00:00Z", "0001-01-01T00:00:00Z"⟩

/-- An alert without labels and annotations (nil maps), firing. -/
def bareAlert : Alert := ⟨"firing", none, none, "2024-01-01T10:00:00Z", "0001-01-01T00:00:00Z"⟩

/-- A resolved alert (status in mixed case) with a parseable end time. -/
def resolvedAlert : Alert :=
  ⟨"Resolved", some [("alertname", "HighCPU"), ("severity", "Warning")], some [],
    "2024-01-01T10:00:00Z", "2024-01-01T10:00:00Z"⟩

/-- A library for running examples: no case pairs above ASCII, a parser that
knows one timestamp, a clock eight hours east of UTC, an encoder without
escaping, and a decoder that knows two request bodies. -/
def demoLib : Lib where
  upperTable := fun r => r
  lowerTable := fun r => r
  timeParse := fun s =>
    if s = "2024-01-01T10:00:00Z" then .ok ⟨1704103200, 0⟩
    else .error ("parsing time \"" ++ s ++ "\": cannot parse")
  formatLocal := fun t =>
    if t = ⟨1704103200, 0⟩ then "2024-01-01 18:00:00" else "1970-01-01 08:00:00"
  jsonMarshal := fun fields =>
    .ok ("\x7b" ++ ",".intercalate (fields.map fun kv =>
      "\"" ++ kv.1 ++ "\":" ++
        (match kv.2 with
         | .str s => "\"" ++ s ++ "\""
         | .int n => toString n)) ++ "\x7d")
  jsonDecode := fun body =>
    if body = "one" then .ok ⟨"firing", [scenarioAlert], "4"⟩
    else if body = "two" then .ok ⟨"resolved", [bareAlert, resolvedAlert], "4"⟩
    else .error "invalid character"

/-- A network driven by a script: each call consumes one entry, `true` answers
with status 500, `false` is a transport error; an exhausted script answers 200. -/
def demoPost : HttpPost (List Bool) := fun net _ =>
  match net with
  | [] => (.ok ⟨200⟩, [])
  | true :: rest => (.ok ⟨500⟩, rest)
  | false :: rest => (.error "connection refused", rest)

/-- The empty trace over a given network state. -/
def World.start {σ : Type} (net : σ) : World σ := ⟨net, [], [], []⟩

/-! ## Lemmas on the library functions -/

theorem unicodeToLower_eq_asciiToLower (lib : Lib) (r : Char)
    (h : (asciiToLower r).toNat ≤ 0x7F) : unicodeToLower lib r = asciiToLower r := by
  unfold asciiToLower at h ⊢
  unfold unicodeToLower
  have hA : 'A'.toNat = 65 := by decide
  have hZ : 'Z'.toNat = 90 := by decide
  by_cases hr : 'A'.toNat ≤ r.toNat ∧ r.toNat ≤ 'Z'.toNat
  · have : r.toNat ≤ 0x7F := by omega
    simp [hr, this]
  · rw [if_neg hr] at h
    simp [hr, h]

theorem map_unicodeToLower_eq (lib : Lib) (l : List Char)
    (h : ∀ c ∈ l.map asciiToLower, c.toNat ≤ 0x7F) :
    l.map (unicodeToLower lib) = l.map asciiToLower := by
  apply List.map_congr_left
  intro r hr
  exact unicodeToLower_eq_asciiToLower lib r (h _ (List.mem_map_of_mem _ hr))

/-- A string that equals an all-lower-case ASCII word up to ASCII case is
lower-cased to that word by `strings.ToLower`, whatever the case tables. -/
theorem stringsToLower_of_equalFoldASCII (lib : Lib) (s t : String)
    (ht : t.data.map asciiToLower = t.data) (hascii : ∀ c ∈ t.data, c.toNat ≤ 0x7F)
    (h : equalFoldASCII s t = true) : stringsToLower lib s = t := by
  unfold equalFoldASCII at h
  have hs : s.data.map asciiToLower = t.data := by
    rw [← ht]; exact eq_of_beq h
  unfold stringsToLower
  rw [map_unicodeToLower_eq lib s.data (by rw [hs]; exact hascii), hs]

theorem critical_lower : "critical".data.map asciiToLower = "critical".data := by decide
theorem critical_ascii : ∀ c ∈ "critical".data, c.toNat ≤ 0x7F := by decide
theorem warning_lower : "warning".data.map asciiToLower = "warning".data := by decide
theorem warning_ascii : ∀ c ∈ "warning".data, c.toNat ≤ 0x7F := by decide
theorem info_lower : "info".data.map asciiToLower = "info".data := by decide
theorem info_ascii : ∀ c ∈ "info".data, c.toNat ≤ 0x7F := by decide

/-- The priority switch of lines 74-82, read off the built notification. -/
theorem priority_eq (lib : Lib) (alert : Alert) :
    (alertToGotify lib alert).Priority =
      if stringsToLower lib (getMapValue alert.Labels "severity" "unknown") = "critical" then 8
      else if stringsToLower lib (getMapValue alert.Labels "severity" "unknown") = "warning" then 5
      else if stringsToLower lib (getMapValue alert.Labels "severity" "unknown") = "info" then 3
      else 5 := rfl

theorem stringsToLower_unknown (lib : Lib) : stringsToLower lib "unknown" = "unknown" := rfl

/-- The title of line 94, read off the built notification. -/
theorem title_eq (lib : Lib) (alert : Alert) :
    (alertToGotify lib alert).Title =
      "[" ++ getMapValue alert.Labels "severity" "unknown" ++ "] " ++
        getMapValue alert.Labels "alertname" "未知告警" ++ " (" ++
        stringsToUpper lib alert.Status ++ ")" := rfl

/-- The message of line 95 with the time line of lines 87-90, read off the
built notification. -/
theorem message_eq (lib : Lib) (alert : Alert) :
    (alertToGotify lib alert).Message =
      getMapValue alert.Annotations "summary" "无摘要" ++ "\n" ++
        getMapValue alert.Annotations "description" "无详情" ++ "\n" ++
        (if stringsToUpper lib alert.Status = "RESOLVED" ∧ formatTime lib alert.EndsAt ≠ ""
          then "恢复时间: " ++ formatTime lib alert.EndsAt
          else "触发时间: " ++ formatTime lib alert.StartsAt) := rfl

theorem getMapValue_absent (m : GoMap) (key d : String) (h : m.find key = none) :
    getMapValue m key d = d := by
  simp [getMapValue, h]

theorem getMapValue_present (m : GoMap) (key d v : String) (h : m.find key = some v) :
    getMapValue m key d = v := by
  simp [getMapValue, h]

theorem stringsToUpper_firing (lib : Lib) : stringsToUpper lib "firing" = "FIRING" := rfl

theorem formatTime_sentinel (lib : Lib) : formatTime lib "0001-01-01T00:00:00Z" = "" := by
  simp [formatTime]

/-- The two time labels differ, so a start-time line is never a resolution
line, whatever follows the labels. -/
theorem start_line_ne_resolved_line (a b : String) :
    "触发时间: " ++ a ≠ "恢复时间: " ++ b := by
  intro h
  have hd := congrArg String.data h
  simp only [String.data_append] at hd
  have h0 := congrArg List.head? hd
  simp at h0

theorem string_append_left_cancel (s a b : String) (h : s ++ a = s ++ b) : a = b := by
  have hd := congrArg String.data h
  simp only [String.data_append] at hd
  exact String.ext (List.append_cancel_left hd)

/-! ## The claims -/

/-- C1. The priority of the notification is decided by the resolved severity
compared case-insensitively: 8 when it lower-cases to "critical" (in
particular for every spelling of "critical" in upper and lower case ASCII
letters), 5 for "warning", 3 for "info", and 5 for every other value, also
when the `severity` label is absent. -/
theorem priority_of_severity (lib : Lib) (alert : Alert) :
    (stringsToLower lib (getMapValue alert.Labels "severity" "unknown") = "critical" →
      (alertToGotify lib alert).Priority = 8) ∧
    (stringsToLower lib (getMapValue alert.Labels "severity" "unknown") = "warning" →
      (alertToGotify lib alert).Priority = 5) ∧
    (stringsToLower lib (getMapValue alert.Labels "severity" "unknown") = "info" →
      (alertToGotify lib alert).Priority = 3) ∧
    (stringsToLower lib (getMapValue alert.Labels "severity" "unknown") ≠ "critical" →
      stringsToLower lib (getMapValue alert.Labels "severity" "unknown") ≠ "warning" →
      stringsToLower lib (getMapValue alert.Labels "severity" "unknown") ≠ "info" →
      (alertToGotify lib alert).Priority = 5) ∧
    (equalFoldASCII (getMapValue alert.Labels "severity" "unknown") "critical" = true →
      (alertToGotify lib alert).Priority = 8) ∧
    (equalFoldASCII (getMapValue alert.Labels "severity" "unknown") "warning" = true →
      (alertToGotify lib alert).Priority = 5) ∧
    (equalFoldASCII (getMapValue alert.Labels "severity" "unknown") "info" = true →
      (alertToGotify lib alert).Priority = 3) ∧
    (alert.Labels.find "severity" = none → (alertToGotify lib alert).Priority = 5) := by
  have hc : stringsToLower lib (getMapValue alert.Labels "severity" "unknown") = "critical" →
      (alertToGotify lib alert).Priority = 8 := by
    intro h; rw [priority_eq, if_pos h]
  have hw : stringsToLower lib (getMapValue alert.Labels "severity" "unknown") = "warning" →
      (alertToGotify lib alert).Priority = 5 := by
    intro h; rw [priority_eq, h]; decide
  have hi : stringsToLower lib (getMapValue alert.Labels "severity" "unknown") = "info" →
      (alertToGotify lib alert).Priority = 3 := by
    intro h; rw [priority_eq, h]; decide
  refine ⟨hc, hw, hi, ?_, ?_, ?_, ?_, ?_⟩
  · intro h1 h2 h3
    rw [priority_eq, if_neg h1, if_neg h2, if_neg h3]
  · intro h
    exact hc (stringsToLower_of_equalFoldASCII lib _ _ critical_lower critical_ascii h)
  · intro h
    exact hw (stringsToLower_of_equalFoldASCII lib _ _ warning_lower warning_ascii h)
  · intro h
    exact hi (stringsToLower_of_equalFoldASCII lib _ _ info_lower info_ascii h)
  · intro h
    have hs : getMapValue alert.Labels "severity" "unknown" = "unknown" := by
      simp [getMapValue, h]
    rw [priority_eq, hs, stringsToLower_unknown]
    decide

/-- C1, at the alert labelled `severity=CRITICAL`: the priority is 8. -/
theorem priority_of_severity_witness :
    equalFoldASCII (getMapValue (some [("severity", "CRITICAL")]) "severity" "unknown")
        "critical" = true ∧
      (alertToGotify demoLib ⟨"firing", some [("severity", "CRITICAL")], none, "", ""⟩).Priority
        = 8 :=
  ⟨by decide,
    (priority_of_severity demoLib
      ⟨"firing", some [("severity", "CRITICAL")], none, "", ""⟩).2.2.2.2.1 (by decide)⟩

/-- C2, as stated, fails: for the firing alert with nil labels and nil
annotations the alert name does not resolve to "unknown", the title is not
"[unknown] unknown (FIRING)" and the message does not begin with
"no summary\nno details\n". -/
theorem defaults_not_as_claimed :
    getMapValue bareAlert.Labels "alertname" "未知告警" ≠ "unknown" ∧
    (alertToGotify demoLib bareAlert).Title ≠ "[unknown] unknown (FIRING)" ∧
    ¬ ("no summary\nno details\n".data <+: (alertToGotify demoLib bareAlert).Message.data) := by
  decide

/-- C2, amended. When the labels hold neither `alertname` nor `severity` and
the annotations neither `summary` nor `description` (nil maps included), the
handler resolves the alert name to "未知告警", the severity to "unknown", the
summary to "无摘要" and the description to "无详情"; with status "firing" the
title is "[unknown] 未知告警 (FIRING)" and the message begins with
"无摘要\n无详情\n". -/
theorem defaults_when_absent (lib : Lib) (alert : Alert)
    (hname : alert.Labels.find "alertname" = none)
    (hsev : alert.Labels.find "severity" = none)
    (hsum : alert.Annotations.find "summary" = none)
    (hdesc : alert.Annotations.find "description" = none) :
    getMapValue alert.Labels "alertname" "未知告警" = "未知告警" ∧
    getMapValue alert.Labels "severity" "unknown" = "unknown" ∧
    getMapValue alert.Annotations "summary" "无摘要" = "无摘要" ∧
    getMapValue alert.Annotations "description" "无详情" = "无详情" ∧
    (alertToGotify lib alert).Title =
      "[unknown] 未知告警 (" ++ stringsToUpper lib alert.Status ++ ")" ∧
    (alert.Status = "firing" →
      (alertToGotify lib alert).Title = "[unknown] 未知告警 (FIRING)") ∧
    (∃ timeLine, (alertToGotify lib alert).Message = "无摘要\n无详情\n" ++ timeLine) := by
  have h1 := getMapValue_absent alert.Labels "alertname" "未知告警" hname
  have h2 := getMapValue_absent alert.Labels "severity" "unknown" hsev
  have h3 := getMapValue_absent alert.Annotations "summary" "无摘要" hsum
  have h4 := getMapValue_absent alert.Annotations "description" "无详情" hdesc
  refine ⟨h1, h2, h3, h4, ?_, ?_, ?_⟩
  · rw [title_eq, h1, h2]; rfl
  · intro hst
    rw [title_eq, h1, h2, hst, stringsToUpper_firing]; rfl
  · rw [message_eq, h3, h4]
    exact ⟨_, rfl⟩

/-- C2 amended, at the firing alert with nil labels and nil annotations. -/
theorem defaults_when_absent_witness :
    (alertToGotify demoLib bareAlert).Title = "[unknown] 未知告警 (FIRING)" ∧
    (alertToGotify demoLib bareAlert).Message
      = "无摘要\n无详情\n" ++ "触发时间: 2024-01-01 18:00:00" :=
  ⟨(defaults_when_absent demoLib bareAlert rfl rfl rfl rfl).2.2.2.2.2.1 rfl, by decide⟩

/-- C3. The title is "[" ++ severity ++ "] " ++ alertName ++ " (" ++ STATUS ++ ")"
with the resolved label values as given and STATUS the upper-cased status of
the alert; an alert labelled `alertname=HighCPU`, `severity=critical` with
status "firing" gets the title "[critical] HighCPU (FIRING)" and priority 8. -/
theorem title_format (lib : Lib) (alert : Alert) :
    (alertToGotify lib alert).Title =
      "[" ++ getMapValue alert.Labels "severity" "unknown" ++ "] " ++
        getMapValue alert.Labels "alertname" "未知告警" ++ " (" ++
        stringsToUpper lib alert.Status ++ ")" ∧
    (alert.Labels.find "alertname" = some "HighCPU" →
      alert.Labels.find "severity" = some "critical" →
      alert.Status = "firing" →
      (alertToGotify lib alert).Title = "[critical] HighCPU (FIRING)" ∧
      (alertToGotify lib alert).Priority = 8) := by
  refine ⟨title_eq lib alert, ?_⟩
  intro hname hsev hst
  have h1 := getMapValue_present alert.Labels "alertname" "未知告警" "HighCPU" hname
  have h2 := getMapValue_present alert.Labels "severity" "unknown" "critical" hsev
  constructor
  · rw [title_eq, h1, h2, hst, stringsToUpper_firing]; rfl
  · rw [priority_eq, h2]; rfl

/-- C3, at the alert of the first end-to-end scenario. -/
theorem title_format_witness :
    (alertToGotify demoLib scenarioAlert).Title = "[critical] HighCPU (FIRING)" ∧
    (alertToGotify demoLib scenarioAlert).Priority = 8 :=
  (title_format demoLib scenarioAlert).2 rfl rfl rfl

/-- C4, as stated, fails: the message of the scenario alert is neither
summary, description and "Triggered: " ++ startTime nor summary, description
and "Resolved: " ++ endTime. -/
theorem message_not_as_claimed :
    (alertToGotify demoLib scenarioAlert).Message ≠
      getMapValue scenarioAlert.Annotations "summary" "无摘要" ++ "\n" ++
        getMapValue scenarioAlert.Annotations "description" "无详情" ++ "\n" ++
        ("Triggered: " ++ formatTime demoLib scenarioAlert.StartsAt) ∧
    (alertToGotify demoLib scenarioAlert).Message ≠
      getMapValue scenarioAlert.Annotations "summary" "无摘要" ++ "\n" ++
        getMapValue scenarioAlert.Annotations "description" "无详情" ++ "\n" ++
        ("Resolved: " ++ formatTime demoLib scenarioAlert.EndsAt) := by
  decide

/-- C4, amended. The message is exactly summary ++ "\n" ++ description ++ "\n"
++ timeLine with the resolved annotation values, where timeLine is either
"触发时间: " ++ formatTime(startsAt) or "恢复时间: " ++ formatTime(endsAt). -/
theorem message_format (lib : Lib) (alert : Alert) :
    (alertToGotify lib alert).Message =
      getMapValue alert.Annotations "summary" "无摘要" ++ "\n" ++
        getMapValue alert.Annotations "description" "无详情" ++ "\n" ++
        ("触发时间: " ++ formatTime lib alert.StartsAt) ∨
    (alertToGotify lib alert).Message =
      getMapValue alert.Annotations "summary" "无摘要" ++ "\n" ++
        getMapValue alert.Annotations "description" "无详情" ++ "\n" ++
        ("恢复时间: " ++ formatTime lib alert.EndsAt) := by
  rw [message_eq]
  by_cases h : stringsToUpper lib alert.Status = "RESOLVED" ∧ formatTime lib alert.EndsAt ≠ ""
  · right; rw [if_pos h]
  · left; rw [if_neg h]

/-- C5. The time line of the message is the resolution label followed by
formatTime(endsAt) exactly when the upper-cased status is "RESOLVED" and
formatTime(endsAt) is not empty; in every other case (another status, the
zero-instant sentinel as endsAt, an endsAt that formats to the empty string)
it is the start-time label followed by formatTime(startsAt). -/
theorem time_line_choice (lib : Lib) (alert : Alert) :
    ((alertToGotify lib alert).Message =
        getMapValue alert.Annotations "summary" "无摘要" ++ "\n" ++
          getMapValue alert.Annotations "description" "无详情" ++ "\n" ++
          ("恢复时间: " ++ formatTime lib alert.EndsAt) ↔
      (stringsToUpper lib alert.Status = "RESOLVED" ∧ formatTime lib alert.EndsAt ≠ "")) ∧
    (¬ (stringsToUpper lib alert.Status = "RESOLVED" ∧ formatTime lib alert.EndsAt ≠ "") →
      (alertToGotify lib alert).Message =
        getMapValue alert.Annotations "summary" "无摘要" ++ "\n" ++
          getMapValue alert.Annotations "description" "无详情" ++ "\n" ++
          ("触发时间: " ++ formatTime lib alert.StartsAt)) ∧
    (stringsToUpper lib alert.Status ≠ "RESOLVED" ∨ alert.EndsAt = "0001-01-01T00:00:00Z" ∨
        formatTime lib alert.EndsAt = "" →
      (alertToGotify lib alert).Message =
        getMapValue alert.Annotations "summary" "无摘要" ++ "\n" ++
          getMapValue alert.Annotations "description" "无详情" ++ "\n" ++
          ("触发时间: " ++ formatTime lib alert.StartsAt)) := by
  have hstart : ¬ (stringsToUpper lib alert.Status = "RESOLVED" ∧
        formatTime lib alert.EndsAt ≠ "") →
      (alertToGotify lib alert).Message =
        getMapValue alert.Annotations "summary" "无摘要" ++ "\n" ++
          getMapValue alert.Annotations "description" "无详情" ++ "\n" ++
          ("触发时间: " ++ formatTime lib alert.StartsAt) := by
    intro h
    rw [message_eq, if_neg h]
  refine ⟨⟨?_, ?_⟩, hstart, ?_⟩
  · intro hmsg
    by_contra hc
    rw [hstart hc] at hmsg
    exact start_line_ne_resolved_line _ _ (string_append_left_cancel _ _ _ hmsg)
  · intro h
    rw [message_eq, if_pos h]
  · intro h
    apply hstart
    rintro ⟨hres, hne⟩
    rcases h with h | h | h
    · exact h hres
    · rw [h, formatTime_sentinel] at hne
      exact hne rfl
    · exact hne h

/-- C5, at a resolved alert with a parseable end time: the time line is the
resolution line. -/
theorem time_line_choice_witness :
    (stringsToUpper demoLib resolvedAlert.Status = "RESOLVED" ∧
      formatTime demoLib resolvedAlert.EndsAt ≠ "") ∧
    (alertToGotify demoLib resolvedAlert).Message =
      getMapValue resolvedAlert.Annotations "summary" "无摘要" ++ "\n" ++
        getMapValue resolvedAlert.Annotations "description" "无详情" ++ "\n" ++
        ("恢复时间: " ++ formatTime demoLib resolvedAlert.EndsAt) :=
  ⟨by decide, (time_line_choice demoLib resolvedAlert).1.2 (by decide)⟩

/-- C6. `formatTime` returns the empty string on the zero-instant sentinel
"0001-01-01T00:00:00Z", whatever the parser and the local time zone are. -/
theorem formatTime_zero_instant (lib : Lib) :
    formatTime lib "0001-01-01T00:00:00Z" = "" := by
  unfold formatTime
  rw [if_pos rfl]

/-- C7. A string that is not the sentinel and that the RFC 3339 parser rejects
(the empty string included, when the parser rejects it) is returned
unchanged; and `formatTime` has a result on every input: the empty string, the
input itself, or the local rendering of the parsed instant. -/
theorem formatTime_unparseable (lib : Lib) (s err : String)
    (hs : s ≠ "0001-01-01T00:00:00Z") (hp : lib.timeParse s = .error err) :
    formatTime lib s = s ∧
    (∀ x, formatTime lib x = "" ∨ formatTime lib x = x ∨
      ∃ t, lib.timeParse x = .ok t ∧ formatTime lib x = lib.formatLocal t) := by
  constructor
  · unfold formatTime
    rw [if_neg hs, hp]
  · intro x
    unfold formatTime
    by_cases hx : x = "0001-01-01T00:00:00Z"
    · left; rw [if_pos hx]
    · right
      rw [if_neg hx]
      cases hpx : lib.timeParse x with
      | error e => left; rfl
      | ok t => right; exact ⟨t, rfl, rfl⟩

/-- C7, at the empty string and at a string that is no timestamp. -/
theorem formatTime_unparseable_witness :
    formatTime demoLib "" = "" ∧ formatTime demoLib "not a time" = "not a time" :=
  ⟨(formatTime_unparseable demoLib "" "parsing time \"\": cannot parse"
      (by decide) rfl).1,
   by decide⟩

/-! ## The forwarder and the handler -/

theorem sendToGotify_sends {σ : Type} (lib : Lib) (httpPost : HttpPost σ) (w : World σ)
    (gotifyURL token : String) (msg : GotifyPayload) :
    (sendToGotify lib httpPost w gotifyURL token msg).2.sends =
      w.sends ++ [⟨gotifyURL, token, msg⟩] := by
  unfold sendToGotify
  cases lib.jsonMarshal msg.toJSON with
  | error e => rfl
  | ok jsonData =>
    simp only
    split <;> rfl

theorem forwardAlerts_sends {σ : Type} (lib : Lib) (httpPost : HttpPost σ)
    (gotifyURL gotifyToken : String) (alerts : List Alert) (w : World σ) :
    (forwardAlerts lib httpPost gotifyURL gotifyToken alerts w).sends =
      w.sends ++ alerts.map (fun a => ⟨gotifyURL, gotifyToken, alertToGotify lib a⟩) := by
  induction alerts generalizing w with
  | nil => simp [forwardAlerts]
  | cons alert rest ih =>
    have hs := sendToGotify_sends lib httpPost w gotifyURL gotifyToken (alertToGotify lib alert)
    unfold forwardAlerts
    simp only
    split
    · next err w1 heq =>
      rw [ih]
      rw [heq] at hs
      simp only at hs
      simp [hs]
    · next resp w1 heq =>
      rw [ih]
      rw [heq] at hs
      simp only at hs
      simp [hs]

/-- C8. When the body decodes to a batch, the handler calls the forwarder
exactly once per alert, in batch order, each time with the configured URL and
token and the notification built from that alert alone, whatever the
serializer and the network answer to each call. -/
theorem forwarder_called_once_per_alert {σ : Type} (lib : Lib) (httpPost : HttpPost σ)
    (gotifyURL gotifyToken : String) (w : World σ) (body : String)
    (alertData : AlertmanagerPayload) (hdec : lib.jsonDecode body = .ok alertData) :
    (webhookHandler lib httpPost gotifyURL gotifyToken w body).2.sends =
      w.sends ++
        alertData.Alerts.map (fun a => ⟨gotifyURL, gotifyToken, alertToGotify lib a⟩) ∧
    (webhookHandler lib httpPost gotifyURL gotifyToken w body).2.sends.length =
      w.sends.length + alertData.Alerts.length := by
  have h : (webhookHandler lib httpPost gotifyURL gotifyToken w body).2.sends =
      w.sends ++
        alertData.Alerts.map (fun a => ⟨gotifyURL, gotifyToken, alertToGotify lib a⟩) := by
    unfold webhookHandler
    rw [hdec]
    exact forwardAlerts_sends lib httpPost gotifyURL gotifyToken alertData.Alerts w
  refine ⟨h, ?_⟩
  rw [h]
  simp

/-- C8, at a batch of two alerts whose first forward meets a transport error
and whose second is answered with status 500: two calls, in order. -/
theorem forwarder_called_once_per_alert_witness :
    (webhookHandler demoLib demoPost "http://gotify" "tok"
        (World.start [false, true]) "two").2.sends =
      [⟨"http://gotify", "tok", alertToGotify demoLib bareAlert⟩,
       ⟨"http://gotify", "tok", alertToGotify demoLib resolvedAlert⟩] :=
  (forwarder_called_once_per_alert demoLib demoPost "http://gotify" "tok"
    (World.start [false, true]) "two" ⟨"resolved", [bareAlert, resolvedAlert], "4"⟩ rfl).1

/-- C9. The handler answers 200 with body "ok" exactly when the request body
decodes, whatever happens to the forwards; when decoding fails with an error
it answers 400 with a body that contains the error text, and neither the
forwarder nor `http.Post` is called. -/
theorem reply_ok_iff_decoded {σ : Type} (lib : Lib) (httpPost : HttpPost σ)
    (gotifyURL gotifyToken : String) (w : World σ) (body : String) :
    ((webhookHandler lib httpPost gotifyURL gotifyToken w body).1 = ⟨200, "ok"⟩ ↔
      ∃ alertData, lib.jsonDecode body = .ok alertData) ∧
    (∀ err, lib.jsonDecode body = .error err →
      (webhookHandler lib httpPost gotifyURL gotifyToken w body).1.status = 400 ∧
      (∃ before after,
        (webhookHandler lib httpPost gotifyURL gotifyToken w body).1.body =
          before ++ err ++ after) ∧
      (webhookHandler lib httpPost gotifyURL gotifyToken w body).2.sends = w.sends ∧
      (webhookHandler lib httpPost gotifyURL gotifyToken w body).2.posts = w.posts) := by
  unfold webhookHandler
  cases hdec : lib.jsonDecode body with
  | error e =>
    refine ⟨⟨?_, ?_⟩, ?_⟩
    · intro h
      have h400 := congrArg Reply.status h
      simp at h400
    · rintro ⟨alertData, h⟩
      cases h
    · intro err herr
      cases herr
      exact ⟨rfl, ⟨"解析请求失败: ", "\n", rfl⟩, rfl, rfl⟩
  | ok alertData =>
    refine ⟨⟨fun _ => ⟨alertData, rfl⟩, fun _ => rfl⟩, ?_⟩
    intro err herr
    cases herr

/-- C9, at a body that does not decode: status 400, the error text in the
body, no call of the forwarder. -/
theorem reply_ok_iff_decoded_witness :
    (webhookHandler demoLib demoPost "http://gotify" "tok"
        (World.start [false, true]) "not json").1.status = 400 ∧
    (webhookHandler demoLib demoPost "http://gotify" "tok"
        (World.start [false, true]) "not json").2.sends = [] ∧
    (webhookHandler demoLib demoPost "http://gotify" "tok"
        (World.start [false, false]) "two").1 = ⟨200, "ok"⟩ :=
  ⟨((reply_ok_iff_decoded demoLib demoPost "http://gotify" "tok"
      (World.start [false, true]) "not json").2 "invalid character" rfl).1,
   by decide,
   (reply_ok_iff_decoded demoLib demoPost "http://gotify" "tok"
      (World.start [false, false]) "two").1.2 ⟨_, rfl⟩⟩

/-- C10. `sendToGotify` serializes the JSON object with the fields `title`,
`message` and `priority` of the notification; when that succeeds it makes
exactly one call of `http.Post`, to gotifyURL ++ "/message?token=" ++ token
with content type "application/json" and the serialized object as body, and
returns the response it receives as success whatever its status code; it
returns an error exactly when serialization or the transport fails, and a
failed serialization makes no call of `http.Post`. -/
theorem sendToGotify_request {σ : Type} (lib : Lib) (httpPost : HttpPost σ) (w : World σ)
    (gotifyURL token : String) (msg : GotifyPayload) :
    (∀ jsonData,
      lib.jsonMarshal [("title", .str msg.Title), ("message", .str msg.Message),
        ("priority", .int msg.Priority)] = .ok jsonData →
      (sendToGotify lib httpPost w gotifyURL token msg).2.posts =
        w.posts ++ [⟨gotifyURL ++ "/message?token=" ++ token, "application/json", jsonData⟩] ∧
      (∀ resp,
        (httpPost w.net ⟨gotifyURL ++ "/message?token=" ++ token, "application/json",
          jsonData⟩).1 = .ok resp →
        (sendToGotify lib httpPost w gotifyURL token msg).1 = .ok resp) ∧
      (∀ err,
        (httpPost w.net ⟨gotifyURL ++ "/message?token=" ++ token, "application/json",
          jsonData⟩).1 = .error err →
        ∃ e, (sendToGotify lib httpPost w gotifyURL token msg).1 = .error e)) ∧
    (∀ err,
      lib.jsonMarshal [("title", .str msg.Title), ("message", .str msg.Message),
        ("priority", .int msg.Priority)] = .error err →
      (sendToGotify lib httpPost w gotifyURL token msg).2.posts = w.posts ∧
      ∃ e, (sendToGotify lib httpPost w gotifyURL token msg).1 = .error e) ∧
    ((∃ e, (sendToGotify lib httpPost w gotifyURL token msg).1 = .error e) ↔
      ((∃ err, lib.jsonMarshal msg.toJSON = .error err) ∨
       (∃ jsonData err, lib.jsonMarshal msg.toJSON = .ok jsonData ∧
          (httpPost w.net ⟨gotifyURL ++ "/message?token=" ++ token, "application/json",
            jsonData⟩).1 = .error err))) := by
  unfold sendToGotify
  show _ ∧ _ ∧ _
  have htj : msg.toJSON = [("title", .str msg.Title), ("message", .str msg.Message),
        ("priority", .int msg.Priority)] := rfl
  rw [← htj]
  cases hm : lib.jsonMarshal msg.toJSON with
  | error e0 =>
    refine ⟨?_, ?_, ?_⟩
    · intro jsonData h; cases h
    · intro err _; exact ⟨rfl, ⟨_, rfl⟩⟩
    · constructor
      · intro _; exact Or.inl ⟨e0, rfl⟩
      · intro _; exact ⟨_, rfl⟩
  | ok jsonData0 =>
    simp only
    cases hp : httpPost w.net
        ⟨gotifyURL ++ "/message?token=" ++ token, "application/json", jsonData0⟩ with
    | mk r net =>
      cases r with
      | error pe =>
        refine ⟨?_, ?_, ?_⟩
        · intro jsonData h
          cases h
          rw [hp]
          refine ⟨rfl, ?_, ?_⟩
          · intro resp hr; cases hr
          · intro err _; exact ⟨_, rfl⟩
        · intro err h; cases h
        · constructor
          · intro _
            exact Or.inr ⟨jsonData0, pe, rfl, by rw [hp]⟩
          · intro _; exact ⟨_, rfl⟩
      | ok resp0 =>
        refine ⟨?_, ?_, ?_⟩
        · intro jsonData h
          cases h
          rw [hp]
          refine ⟨rfl, ?_, ?_⟩
          · intro resp hr; cases hr; rfl
          · intro err hr; cases hr
        · intro err h; cases h
        · constructor
          · rintro ⟨e, he⟩; cases he
          · rintro (⟨err, h⟩ | ⟨jsonData, err, h1, h2⟩)
            · cases h
            · cases h1
              rw [hp] at h2
              cases h2

/-- C10, at a notification that the network answers with status 500: one
POST to the message URL with the token, and the response is returned as
success. -/
theorem sendToGotify_request_witness :
    (sendToGotify demoLib demoPost (World.start [true]) "http://gotify" "tok"
        ⟨"t", "m", 5⟩).2.posts =
      [⟨"http://gotify/message?token=tok", "application/json",
        "\x7b\"title\":\"t\",\"message\":\"m\",\"priority\":5\x7d"⟩] ∧
    (sendToGotify demoLib demoPost (World.start [true]) "http://gotify" "tok"
        ⟨"t", "m", 5⟩).1 = .ok ⟨500⟩ :=
  ⟨((sendToGotify_request demoLib demoPost (World.start [true]) "http://gotify" "tok"
      ⟨"t", "m", 5⟩).1 _ rfl).1,
   ((sendToGotify_request demoLib demoPost (World.start [true]) "http://gotify" "tok"
      ⟨"t", "m", 5⟩).1 "\x7b\"title\":\"t\",\"message\":\"m\",\"priority\":5\x7d" rfl).2.1
      ⟨500⟩ rfl⟩

end Alert2Gotify
